import Mathlib

/-!
Shallow embedding of the compio proactor driver core
(`src/compio-driver/src/iocp/mod.rs` and `src/compio/src/driver/poll/op.rs`)
together with theorems settling the frozen claims about the
natural-language specification.

Conventions of the embedding:
* `io::Result<T>` is `Except Int T`, the `Int` being a raw OS error code.
* `Poll<T>` (from `std::task`) is the inductive `Poll` below.
* Raw pointers and `user_data` values are `Nat` (a `user_data` is the
  address of the heap cell holding the operation; the completion header
  sits at offset 0 of that cell, so the overlapped pointer of a key is
  numerically equal to its `user_data`).
* System calls and the thread pool are environments the driver reacts to;
  they enter the functions as explicit oracle arguments (`Bool` outcomes,
  `Except Int _` results), so every function stays pure and executable.
-/

namespace Compio

/-- Raw OS handle: `pub type RawFd = isize` on Windows. -/
abbrev RawFd := Int

/-- Windows OS error code `ERROR_BUSY` (from `windows_sys`). -/
def ERROR_BUSY : Int := 170

/-- Windows OS error code `ERROR_CANCELLED` (from `windows_sys`). -/
def ERROR_CANCELLED : Int := 1223

/-- `std::task::Poll`. -/
inductive Poll (α : Type) where
  | Ready (val : α)
  | Pending
deriving DecidableEq, Repr

deriving instance DecidableEq for Except

/-- A completion entry: `(user_data, Result<usize, Error>)`
(`crate::Entry`, reconstructed from its use in `iocp/mod.rs`). -/
structure Entry where
  user_data : Nat
  result : Except Int Nat
deriving DecidableEq, Repr

/-- Constructor mirroring `Entry::new(user_data, result)`. -/
def Entry.new (user_data : Nat) (result : Except Int Nat) : Entry :=
  { user_data := user_data, result := result }

/-- Modelled from the spec: `WaitCompletionPacket` (file `iocp/wait.rs` is
not under `src/`). Spec section 4.6: the packet adapts an event handle into a
completion event and remembers whether its wait was cancelled; the driver
reads that flag through `is_cancelled`. -/
structure WaitCompletionPacket where
  cancelled : Bool
deriving DecidableEq, Repr

/-- Accessor `WaitCompletionPacket::is_cancelled`. -/
def WaitCompletionPacket.is_cancelled (w : WaitCompletionPacket) : Bool :=
  w.cancelled

/-- Modelled from the spec: `WaitCompletionPacket::cancel` (file
`iocp/wait.rs` is not under `src/`). Spec section 4.6: cancellation tries to
deregister the packet with the kernel; `succeeds` is the kernel outcome.
On success the packet is marked cancelled, on failure the OS error `err`
is returned and the packet is unchanged. -/
def WaitCompletionPacket.cancel (w : WaitCompletionPacket) (succeeds : Bool)
    (err : Int) : WaitCompletionPacket × Except Int Unit :=
  if succeeds then ({ w with cancelled := true }, Except.ok ())
  else (w, Except.error err)

/-- The driver's wait-packet registry `waits : HashMap<usize,
WaitCompletionPacket>`, embedded as an association list keyed by
`user_data`. -/
abbrev WaitTable := List (Nat × WaitCompletionPacket)

/-- `HashMap` lookup. -/
def WaitTable.lookup : WaitTable → Nat → Option WaitCompletionPacket
  | [], _ => none
  | (k, w) :: rest, key => if k = key then some w else WaitTable.lookup rest key

/-- `HashMap::remove`: drop the binding for `key`. -/
def WaitTable.remove : WaitTable → Nat → WaitTable
  | [], _ => []
  | (k, w) :: rest, key =>
    if k = key then WaitTable.remove rest key
    else (k, w) :: WaitTable.remove rest key

/-- `HashMap::insert`: bind `key` to `w`, replacing any previous binding. -/
def WaitTable.insert (t : WaitTable) (key : Nat) (w : WaitCompletionPacket) :
    WaitTable :=
  (key, w) :: WaitTable.remove t key

/-- In-place mutation through `HashMap::get_mut`: replace the packet stored
under `key` (used by `Driver::cancel`, which mutates the packet it finds). -/
def WaitTable.update : WaitTable → Nat → WaitCompletionPacket → WaitTable
  | [], _, _ => []
  | (k, w) :: rest, key, w' =>
    if k = key then (k, w') :: WaitTable.update rest key w'
    else (k, w) :: WaitTable.update rest key w'

/-- The kernel-facing completion port, reduced to the observable the claims
need: the queue of raw overlapped pointers posted through `post_raw`
(`cp::Port` lives in `iocp/cp.rs`, not under `src/`; spec section 4.3 gives
its contract). -/
structure PortState where
  posted : List Nat
deriving DecidableEq, Repr

/-- Modelled from the spec: `Port::post_raw` / `PortHandle::post_raw`
(section 4.3) enqueues a synthetic completion carrying the given header
pointer; `ok` is the kernel outcome, a failed post enqueues nothing and the
error is returned to the caller. -/
def PortState.post_raw (p : PortState) (ptr : Nat) (ok : Bool) :
    PortState × Except Int Unit :=
  if ok then ({ posted := p.posted ++ [ptr] }, Except.ok ())
  else (p, Except.error 1)

/-- Operation classification `OpType` from `iocp/mod.rs`. -/
inductive OpType where
  | Overlapped
  | Blocking
  | Event (e : RawFd)
deriving DecidableEq, Repr

/-- Default body of `OpCode::op_type`: classify as `Overlapped`. -/
def OpCode.opTypeDefault : OpType :=
  OpType.Overlapped

/-- Default body of `OpCode::cancel`: ignore the overlapped pointer and
return `Ok(())`. -/
def OpCode.cancelDefault (optr : Nat) : Except Int Unit :=
  let _optr := optr
  Except.ok ()

/-- Modelled from the spec: `Key` (file `key.rs` is not under `src/`).
Spec section 4.2: a key's `user_data` equals the address of the pinned cell
holding `(completion_header, op)`. -/
structure Key where
  user_data : Nat
deriving DecidableEq, Repr

/-- Modelled from the spec: `Key::as_mut_ptr` returns the pointer to the
cell's completion header, which sits at offset 0 of the cell, hence is
numerically the `user_data` (spec sections 3 and 4.2). -/
def Key.as_mut_ptr (k : Key) : Nat :=
  k.user_data

/-- The mutable registries of the driver that `push`, `cancel` and `poll`
read and write: the wait-packet table, the asyncify pool's accepted work
(as the list of dispatched `user_data`s), the port, and the record of
`OpCode::cancel` hook invocations (by overlapped pointer). -/
structure DriverState where
  waits : WaitTable
  poolQueue : List Nat
  port : PortState
  cancelHookCalls : List Nat
deriving DecidableEq, Repr

/-- `Driver::create_entry` from `iocp/mod.rs`. `operate_blocking` is the
oracle giving the result of `Key::<dyn OpCode>::operate_blocking` for the
operation recovered from a `user_data`. Returns the updated wait table and
the optional entry to surface. -/
def Driver.create_entry (notify_user_data : Nat) (waits : WaitTable)
    (operate_blocking : Nat → Except Int Nat) (entry : Entry) :
    WaitTable × Option Entry :=
  let user_data := entry.user_data
  if user_data ≠ notify_user_data then
    match WaitTable.lookup waits user_data with
    | some w =>
      (WaitTable.remove waits user_data,
        if w.is_cancelled then
          some (Entry.new user_data (Except.error ERROR_CANCELLED))
        else
          some (Entry.new user_data (operate_blocking user_data)))
    | none => (waits, some entry)
  else
    (waits, none)

/-- The entry-synthesis loop of `Driver::poll`: filter each raw entry from
`port.poll` through `create_entry` (threading the wait table, which
`create_entry` mutates) and extend the output sink with the survivors. -/
def Driver.pollEntries (notify_user_data : Nat)
    (operate_blocking : Nat → Except Int Nat) :
    WaitTable → List Entry → WaitTable × List Entry
  | waits, [] => (waits, [])
  | waits, e :: rest =>
    let step := Driver.create_entry notify_user_data waits operate_blocking e
    let restOut := Driver.pollEntries notify_user_data operate_blocking step.1 rest
    (restOut.1,
      match step.2 with
      | some x => x :: restOut.2
      | none => restOut.2)

/-- `Driver::cancel` from `iocp/mod.rs`. Oracles: `packetCancelOk` /
`packetCancelErr` give the kernel outcome of `WaitCompletionPacket::cancel`;
`postOk` the outcome of `Port::post_raw`; `opCancel` the result of the
`OpCode::cancel` hook at a given overlapped pointer. The function returns
the new state and `()` — every oracle failure is swallowed with `.ok()`. -/
def Driver.cancel (st : DriverState) (k : Key) (packetCancelOk : Bool)
    (packetCancelErr : Int) (postOk : Bool)
    (opCancel : Nat → Except Int Unit) : DriverState × Unit :=
  let overlapped_ptr := k.as_mut_ptr
  let st1 :=
    match WaitTable.lookup st.waits k.user_data with
    | some w =>
      let c := w.cancel packetCancelOk packetCancelErr
      let waits' := WaitTable.update st.waits k.user_data c.1
      match c.2 with
      | Except.ok _ =>
        let p := st.port.post_raw overlapped_ptr postOk
        { st with waits := waits', port := p.1 }
      | Except.error _ => { st with waits := waits' }
    | none => st
  let _hookResult := opCancel overlapped_ptr
  ({ st1 with cancelHookCalls := st1.cancelHookCalls ++ [overlapped_ptr] }, ())

/-- `Driver::push_blocking` from `iocp/mod.rs`: dispatch the blocking body
to the asyncify pool; `dispatchOk` is the pool's accept/refuse decision
(spec section 4.5: a refused closure is handed back, nothing is queued).
Always returns `Ok(accepted)`. -/
def Driver.push_blocking (st : DriverState) (user_data : Nat)
    (dispatchOk : Bool) : DriverState × Except Int Bool :=
  if dispatchOk then
    ({ st with poolQueue := st.poolQueue ++ [user_data] }, Except.ok true)
  else
    (st, Except.ok false)

/-- `Driver::push` from `iocp/mod.rs`. Oracles: `operate` is the result of
`OpCode::operate` (for the `Overlapped` arm), `dispatchOk` the pool's
decision (for `Blocking`), `newPacket` the result of
`WaitCompletionPacket::new` (for `Event`). -/
def Driver.push (st : DriverState) (k : Key) (opType : OpType)
    (operate : Poll (Except Int Nat)) (dispatchOk : Bool)
    (newPacket : Except Int WaitCompletionPacket) :
    DriverState × Poll (Except Int Nat) :=
  match opType with
  | OpType.Overlapped => (st, operate)
  | OpType.Blocking =>
    let b := Driver.push_blocking st k.user_data dispatchOk
    match b.2 with
    | Except.ok true => (b.1, Poll.Pending)
    | Except.ok false => (b.1, Poll.Ready (Except.error ERROR_BUSY))
    | Except.error e => (b.1, Poll.Ready (Except.error e))
  | OpType.Event _ =>
    match newPacket with
    | Except.ok w =>
      ({ st with waits := WaitTable.insert st.waits k.user_data w },
        Poll.Pending)
    | Except.error e => (st, Poll.Ready (Except.error e))

/-- `windows_sys` `OVERLAPPED` record: `Internal`, `InternalHigh`, the
offset pair of the anonymous union, and `hEvent`. -/
structure OVERLAPPED where
  Internal : Nat
  InternalHigh : Nat
  Offset : Nat
  OffsetHigh : Nat
  hEvent : Int
deriving DecidableEq, Repr

/-- `std::mem::zeroed::<OVERLAPPED>()`: every field zero. -/
def OVERLAPPED.zeroed : OVERLAPPED :=
  { Internal := 0, InternalHigh := 0, Offset := 0, OffsetHigh := 0
    hEvent := 0 }

/-- The driver's completion header `Overlapped` from `iocp/mod.rs`:
the base `OVERLAPPED` followed by the driver id. -/
structure Overlapped where
  base : OVERLAPPED
  driver : RawFd
deriving DecidableEq, Repr

/-- `Overlapped::new(driver)` from `iocp/mod.rs`: zero the base record and
store the driver id. -/
def Overlapped.new (driver : RawFd) : Overlapped :=
  { base := OVERLAPPED.zeroed, driver := driver }

/-- Modelled from the spec: `cp::Port` (file `iocp/cp.rs` is not under
`src/`). For `Driver::new` only its raw handle matters. -/
structure Port where
  raw_handle : RawFd
deriving DecidableEq, Repr

/-- The driver value built by `Driver::new` (fields `port`, `waits`,
`notify_overlapped`; the `pool` field is the asyncify pool handle, opaque to
the construction claims and elided). -/
structure Driver where
  port : Port
  waits : WaitTable
  notify_overlapped : Overlapped
deriving DecidableEq, Repr

/-- `Driver::new` from `iocp/mod.rs`. Oracles: `wsaStartup` is the outcome
of `syscall!(SOCKET, WSAStartup(0x202, ..))`, `portNew` the outcome of
`cp::Port::new()`. Each is propagated with `?`; on success the notify
sentinel header is freshly built from the port's raw handle. -/
def Driver.new (wsaStartup : Except Int Unit) (portNew : Except Int Port) :
    Except Int Driver :=
  match wsaStartup with
  | Except.error e => Except.error e
  | Except.ok _ =>
    match portNew with
    | Except.error e => Except.error e
    | Except.ok port =>
      Except.ok
        { port := port
          waits := []
          notify_overlapped := Overlapped.new port.raw_handle }

/-- Modelled from the spec: the readiness-platform classification
`Decision` (declared in `driver/poll/mod.rs`, not under `src/`; spec
section 4.1): `Completed(n)`, `WaitReadable(fd)`, or `WaitWritable(fd)`. -/
inductive Decision where
  | Completed (n : Nat)
  | WaitReadable (fd : RawFd)
  | WaitWritable (fd : RawFd)
deriving DecidableEq, Repr

/-- `Decision::wait_readable(fd)`. -/
def Decision.wait_readable (fd : RawFd) : Decision :=
  Decision.WaitReadable fd

/-- `Decision::wait_writable(fd)`. -/
def Decision.wait_writable (fd : RawFd) : Decision :=
  Decision.WaitWritable fd

/-- Whether a decision asks the poller to wait on a direction. -/
def Decision.isWait : Decision → Bool
  | Decision.WaitReadable _ => true
  | Decision.WaitWritable _ => true
  | Decision.Completed _ => false

/-- Modelled from the spec: the readiness driver registers interest with the
poller exactly when `pre_submit` returns a wait decision (spec sections 4.1
and 4.4); a `Completed` or error outcome registers nothing. -/
def registersInterest : Except Int Decision → Bool
  | Except.ok d => d.isWait
  | Except.error _ => false

/-- The fields of `RecvImpl` that `pre_submit` reads: only `fd`. -/
structure RecvImpl where
  fd : RawFd
deriving DecidableEq, Repr

/-- The fields of `SendImpl` that `pre_submit` reads: only `fd`. -/
structure SendImpl where
  fd : RawFd
deriving DecidableEq, Repr

/-- The fields of `Sync` (fsync) that `pre_submit` reads: only `fd`. -/
structure Sync where
  fd : RawFd
deriving DecidableEq, Repr

/-- `RecvImpl::pre_submit` from `driver/poll/op.rs`: the body is exactly
`Ok(Decision::wait_readable(self.fd))`; no syscall is attempted. -/
def RecvImpl.pre_submit (self : RecvImpl) : Except Int Decision :=
  Except.ok (Decision.wait_readable self.fd)

/-- `SendImpl::pre_submit` from `driver/poll/op.rs`: the body is exactly
`Ok(Decision::wait_writable(self.fd))`; no syscall is attempted. -/
def SendImpl.pre_submit (self : SendImpl) : Except Int Decision :=
  Except.ok (Decision.wait_writable self.fd)

/-- Follows the spec's words, for comparison with `RecvImpl.pre_submit`
(spec section 4.1, readiness-based submit contract): attempt the call
non-blockingly; if it would block return the direction to wait on, otherwise
return the completed byte count or the error. `callOutcome` is what the
non-blocking recv call would return, `none` meaning it would block. -/
def RecvImpl.pre_submit_fromSpec (callOutcome : Option (Except Int Nat))
    (self : RecvImpl) : Except Int Decision :=
  match callOutcome with
  | none => Except.ok (Decision.wait_readable self.fd)
  | some (Except.ok n) => Except.ok (Decision.Completed n)
  | some (Except.error e) => Except.error e

/-- Follows the spec's words, for comparison with `SendImpl.pre_submit`
(spec section 4.1): attempt the call non-blockingly; if it would block
return the direction to wait on, otherwise return the completed byte count
or the error. -/
def SendImpl.pre_submit_fromSpec (callOutcome : Option (Except Int Nat))
    (self : SendImpl) : Except Int Decision :=
  match callOutcome with
  | none => Except.ok (Decision.wait_writable self.fd)
  | some (Except.ok n) => Except.ok (Decision.Completed n)
  | some (Except.error e) => Except.error e

/-- `Sync::pre_submit` from `driver/poll/op.rs`:
`Ok(Decision::Completed(syscall!(fsync(self.fd))? as _))`. The oracle
`fsync` gives the syscall's outcome per fd; an error is propagated by `?`,
a success becomes `Completed`. -/
def Sync.pre_submit (fsync : RawFd → Except Int Nat) (self : Sync) :
    Except Int Decision :=
  match fsync self.fd with
  | Except.error e => Except.error e
  | Except.ok n => Except.ok (Decision.Completed n)

/-! Helper lemmas shared by the claim theorems. -/

theorem WaitTable.lookup_update (t : WaitTable) (key : Nat)
    (w w' : WaitCompletionPacket) (h : WaitTable.lookup t key = some w) :
    WaitTable.lookup (WaitTable.update t key w') key = some w' := by
  induction t with
  | nil => simp [WaitTable.lookup] at h
  | cons hd tl ih =>
    obtain ⟨k, wv⟩ := hd
    by_cases hk : k = key
    · simp [WaitTable.update, WaitTable.lookup, hk]
    · simp only [WaitTable.lookup, hk, if_neg, ite_false] at h
      simp only [WaitTable.update, hk, ite_false, WaitTable.lookup, if_neg]
      exact ih h

theorem create_entry_hit (notify ud : Nat) (waits : WaitTable)
    (ob : Nat → Except Int Nat) (r : Except Int Nat)
    (w : WaitCompletionPacket) (hne : ud ≠ notify)
    (hw : WaitTable.lookup waits ud = some w) :
    Driver.create_entry notify waits ob (Entry.new ud r) =
      (WaitTable.remove waits ud,
        some (Entry.new ud
          (if w.is_cancelled then Except.error ERROR_CANCELLED else ob ud))) := by
  cases hc : w.is_cancelled <;>
    simp [Driver.create_entry, Entry.new, hne, hw, hc]

theorem create_entry_snd_ne_notify (notify : Nat) (waits : WaitTable)
    (ob : Nat → Except Int Nat) (e x : Entry)
    (h : (Driver.create_entry notify waits ob e).2 = some x) :
    x.user_data ≠ notify := by
  by_cases hu : e.user_data = notify
  · simp [Driver.create_entry, hu] at h
  · cases hl : WaitTable.lookup waits e.user_data with
    | none =>
      simp [Driver.create_entry, hu, hl] at h
      simpa [← h] using hu
    | some w =>
      cases hc : w.is_cancelled <;>
        · simp [Driver.create_entry, hu, hl, hc] at h
          simpa [← h, Entry.new] using hu

theorem mem_pollEntries_ne_notify (notify : Nat)
    (ob : Nat → Except Int Nat) :
    ∀ (waits : WaitTable) (es : List Entry) (x : Entry),
      x ∈ (Driver.pollEntries notify ob waits es).2 → x.user_data ≠ notify
  | _, [], x, hx => by simp [Driver.pollEntries] at hx
  | waits, e :: rest, x, hx => by
    simp only [Driver.pollEntries] at hx
    cases hs : (Driver.create_entry notify waits ob e).2 with
    | none =>
      rw [hs] at hx
      exact mem_pollEntries_ne_notify notify ob _ rest x hx
    | some y =>
      rw [hs] at hx
      rcases List.mem_cons.mp hx with hxy | hx'
      · exact hxy ▸ create_entry_snd_ne_notify notify waits ob e y hs
      · exact mem_pollEntries_ne_notify notify ob _ rest x hx'

/-! Claim theorems. -/

/-- C1: a raw completion entry whose `user_data` equals the notify
sentinel's address makes `create_entry` return `none` (and leave the wait
table untouched), and no entry with the sentinel `user_data` is ever
extended into the `poll` output sink. -/
theorem create_entry_sentinel_suppressed (notify : Nat) (waits : WaitTable)
    (ob : Nat → Except Int Nat) (r : Except Int Nat) (es : List Entry) :
    Driver.create_entry notify waits ob (Entry.new notify r) =
      (waits, none) ∧
    ((Driver.pollEntries notify ob waits es).2.all
      (fun x => x.user_data != notify)) = true := by
  constructor
  · simp [Driver.create_entry, Entry.new]
  · rw [List.all_eq_true]
    intro x hx
    exact bne_iff_ne.mpr (mem_pollEntries_ne_notify notify ob waits es x hx)

/-- C3: for a non-sentinel entry whose `user_data` is a key of the wait
table, `create_entry` removes the key and returns `some` entry with the
same `user_data`, carrying `Err(ERROR_CANCELLED)` when the removed packet
was cancelled and the result of `operate_blocking` otherwise. -/
theorem create_entry_wait_table_hit (notify ud : Nat) (waits : WaitTable)
    (ob : Nat → Except Int Nat) (r : Except Int Nat)
    (w : WaitCompletionPacket) (hne : ud ≠ notify)
    (hw : WaitTable.lookup waits ud = some w) :
    Driver.create_entry notify waits ob (Entry.new ud r) =
      (WaitTable.remove waits ud,
        some (Entry.new ud
          (if w.is_cancelled then Except.error ERROR_CANCELLED else ob ud))) :=
  create_entry_hit notify ud waits ob r w hne hw

theorem create_entry_wait_table_hit_witness :
    (1 : Nat) ≠ 0 ∧
    WaitTable.lookup [(1, ⟨true⟩)] 1 = some ⟨true⟩ ∧
    Driver.create_entry 0 [(1, ⟨true⟩)] (fun _ => Except.ok 7)
        (Entry.new 1 (Except.ok 0)) =
      (WaitTable.remove [(1, ⟨true⟩)] 1,
        some (Entry.new 1
          (if (⟨true⟩ : WaitCompletionPacket).is_cancelled then
            Except.error ERROR_CANCELLED
          else (fun _ => Except.ok 7) 1))) :=
  ⟨by decide, by decide,
    create_entry_wait_table_hit 0 1 [(1, ⟨true⟩)] (fun _ => Except.ok 7)
      (Except.ok 0) ⟨true⟩ (by decide) (by decide)⟩

/-- C9: the default body of `OpCode::cancel` returns `Ok(())` for every
overlapped pointer (it only binds and discards the pointer), and the
default `OpCode::op_type` classifies the operation as `Overlapped`. -/
theorem opcode_defaults (optr : Nat) :
    OpCode.cancelDefault optr = Except.ok () ∧
    OpCode.opTypeDefault = OpType.Overlapped :=
  ⟨rfl, rfl⟩

/-- C10: `Sync::pre_submit` is exactly the `fsync` outcome mapped through
`Completed` — it never produces a wait decision, so the readiness driver
never registers interest for a `Sync` operation and `Sync::on_event`
(whose body is `unreachable!`) is never invoked. -/
theorem sync_pre_submit_never_waits (fsync : RawFd → Except Int Nat)
    (s : Sync) :
    Sync.pre_submit fsync s = (fsync s.fd).map Decision.Completed ∧
    registersInterest (Sync.pre_submit fsync s) = false := by
  cases h : fsync s.fd <;>
    simp [Sync.pre_submit, registersInterest, Except.map, h, Decision.isWait]

/-- C6 counterexample: on an input where the non-blocking call would
succeed immediately with 5 bytes, the spec's submit contract returns
`Completed 5`, but `RecvImpl::pre_submit` as written still returns
`WaitReadable`; the claim that `pre_submit` attempts the syscall first is
false. -/
theorem recv_pre_submit_ignores_ready_syscall :
    RecvImpl.pre_submit ⟨3⟩ ≠
      RecvImpl.pre_submit_fromSpec (some (Except.ok 5)) ⟨3⟩ := by
  decide

/-- C6 amended: `RecvImpl::pre_submit` and `SendImpl::pre_submit` never
attempt the syscall; they unconditionally return the direction to wait on
(`WaitReadable` for recv, `WaitWritable` for send); the syscall is only
attempted later in `on_event`. -/
theorem recv_send_pre_submit_always_wait (r : RecvImpl) (s : SendImpl) :
    RecvImpl.pre_submit r = Except.ok (Decision.WaitReadable r.fd) ∧
    SendImpl.pre_submit s = Except.ok (Decision.WaitWritable s.fd) :=
  ⟨rfl, rfl⟩

/-- C2: `Driver::cancel` returns `()` whatever the oracles decide (all
failures are swallowed); it always invokes the `OpCode::cancel` hook at the
key's overlapped pointer; and when the key is in the wait-packet table and
the packet's cancel succeeds, a synthetic completion carrying the key's
overlapped pointer is posted to the port (a post failure is swallowed and
posts nothing), after which the completion path (`create_entry`) turns any
entry with that `user_data` into a `Canceled` entry. -/
theorem driver_cancel_advisory (st : DriverState) (k : Key) (pOk : Bool)
    (pErr : Int) (postOk : Bool) (opCancel : Nat → Except Int Unit) :
    (Driver.cancel st k pOk pErr postOk opCancel).2 = () ∧
    (Driver.cancel st k pOk pErr postOk opCancel).1.cancelHookCalls =
      st.cancelHookCalls ++ [k.as_mut_ptr] ∧
    (∀ w, WaitTable.lookup st.waits k.user_data = some w → pOk = true →
      (postOk = true →
        (Driver.cancel st k pOk pErr postOk opCancel).1.port.posted =
          st.port.posted ++ [k.as_mut_ptr]) ∧
      (postOk = false →
        (Driver.cancel st k pOk pErr postOk opCancel).1.port.posted =
          st.port.posted) ∧
      (∀ notify ob r, k.user_data ≠ notify →
        Driver.create_entry notify
            (Driver.cancel st k pOk pErr postOk opCancel).1.waits ob
            (Entry.new k.user_data r) =
          (WaitTable.remove
              (Driver.cancel st k pOk pErr postOk opCancel).1.waits
              k.user_data,
            some (Entry.new k.user_data
              (Except.error ERROR_CANCELLED))))) := by
  refine ⟨rfl, ?_, ?_⟩
  · cases hl : WaitTable.lookup st.waits k.user_data <;>
      cases pOk <;> cases postOk <;>
        simp [Driver.cancel, WaitCompletionPacket.cancel, PortState.post_raw,
          hl]
  · intro w hl hp
    subst hp
    refine ⟨?_, ?_, ?_⟩
    · intro hpost
      subst hpost
      simp [Driver.cancel, WaitCompletionPacket.cancel, PortState.post_raw,
        hl]
    · intro hpost
      subst hpost
      simp [Driver.cancel, WaitCompletionPacket.cancel, PortState.post_raw,
        hl]
    · intro notify ob r hne
      have hlu : WaitTable.lookup
          (Driver.cancel st k true pErr postOk opCancel).1.waits
          k.user_data = some { w with cancelled := true } := by
        cases postOk <;>
          simp [Driver.cancel, WaitCompletionPacket.cancel,
            PortState.post_raw, hl,
            WaitTable.lookup_update st.waits k.user_data w _ hl]
      have h := create_entry_hit notify k.user_data
        (Driver.cancel st k true pErr postOk opCancel).1.waits ob r
        { w with cancelled := true } hne hlu
      simpa [WaitCompletionPacket.is_cancelled] using h

theorem driver_cancel_advisory_witness :
    WaitTable.lookup ([(5, ⟨false⟩)] : WaitTable) 5 = some ⟨false⟩ ∧
    (Driver.cancel ⟨[(5, ⟨false⟩)], [], ⟨[]⟩, []⟩ ⟨5⟩ true 1 true
        (fun _ => Except.error 2)).1.port.posted = [] ++ [Key.as_mut_ptr ⟨5⟩] ∧
    Driver.create_entry 0
        (Driver.cancel ⟨[(5, ⟨false⟩)], [], ⟨[]⟩, []⟩ ⟨5⟩ true 1 true
          (fun _ => Except.error 2)).1.waits (fun _ => Except.ok 4)
        (Entry.new 5 (Except.ok 0)) =
      (WaitTable.remove
          (Driver.cancel ⟨[(5, ⟨false⟩)], [], ⟨[]⟩, []⟩ ⟨5⟩ true 1 true
            (fun _ => Except.error 2)).1.waits 5,
        some (Entry.new 5 (Except.error ERROR_CANCELLED))) :=
  ⟨by decide,
    ((driver_cancel_advisory ⟨[(5, ⟨false⟩)], [], ⟨[]⟩, []⟩ ⟨5⟩ true 1 true
        (fun _ => Except.error 2)).2.2 ⟨false⟩ (by decide) rfl).1 rfl,
    ((driver_cancel_advisory ⟨[(5, ⟨false⟩)], [], ⟨[]⟩, []⟩ ⟨5⟩ true 1 true
        (fun _ => Except.error 2)).2.2 ⟨false⟩ (by decide) rfl).2.2
      0 (fun _ => Except.ok 4) (Except.ok 0) (by decide)⟩

/-- C4: for a `Blocking` operation, `Driver::push` returns `Pending` if and
only if the asyncify pool accepted the dispatched closure; on refusal it
returns `Ready(Err(ERROR_BUSY))` and the whole driver state (wait-packet
table, pool queue, port) is unchanged; on acceptance only the pool queue
gains the operation's `user_data`. -/
theorem push_blocking_busy (st : DriverState) (k : Key)
    (operate : Poll (Except Int Nat)) (dispatchOk : Bool)
    (np : Except Int WaitCompletionPacket) :
    ((Driver.push st k OpType.Blocking operate dispatchOk np).2 =
        Poll.Pending ↔ dispatchOk = true) ∧
    (dispatchOk = false →
      Driver.push st k OpType.Blocking operate dispatchOk np =
        (st, Poll.Ready (Except.error ERROR_BUSY))) ∧
    (dispatchOk = true →
      Driver.push st k OpType.Blocking operate dispatchOk np =
        ({ st with poolQueue := st.poolQueue ++ [k.user_data] },
          Poll.Pending)) := by
  cases dispatchOk <;>
    simp [Driver.push, Driver.push_blocking]

theorem push_blocking_busy_witness :
    Driver.push ⟨[], [], ⟨[]⟩, []⟩ ⟨7⟩ OpType.Blocking Poll.Pending false
        (Except.ok ⟨false⟩) =
      (⟨[], [], ⟨[]⟩, []⟩, Poll.Ready (Except.error ERROR_BUSY)) :=
  (push_blocking_busy ⟨[], [], ⟨[]⟩, []⟩ ⟨7⟩ Poll.Pending false
      (Except.ok ⟨false⟩)).2.1 rfl

/-- C5: for an `Event(e)` operation, `Driver::push` inserts the freshly
created wait-completion packet into the wait table keyed by the operation's
`user_data` and returns `Pending`; if packet creation fails, it returns
`Ready(Err)` with that error and the state (in particular the wait table)
is unchanged. -/
theorem push_event_registers_packet (st : DriverState) (k : Key)
    (e : RawFd) (operate : Poll (Except Int Nat)) (dispatchOk : Bool) :
    (∀ w, Driver.push st k (OpType.Event e) operate dispatchOk
        (Except.ok w) =
      ({ st with waits := WaitTable.insert st.waits k.user_data w },
        Poll.Pending)) ∧
    (∀ err, Driver.push st k (OpType.Event e) operate dispatchOk
        (Except.error err) =
      (st, Poll.Ready (Except.error err))) :=
  ⟨fun _ => rfl, fun _ => rfl⟩

/-- C7: `Driver::new` yields a driver exactly when both the socket-library
startup (`WSAStartup`) and the completion-port creation succeed; if either
fails, the construction is an error. -/
theorem driver_new_ok_iff (wsa : Except Int Unit) (p : Except Int Port) :
    (Driver.new wsa p).isOk = (wsa.isOk && p.isOk) := by
  cases wsa <;> cases p <;> simp [Driver.new, Except.isOk, Except.toBool]

/-- C8: `Overlapped::new` zero-initializes the base `OVERLAPPED` record and
stores the given driver id; in particular a successfully constructed
driver's notify sentinel header is `Overlapped.new` of the port's raw
handle, whose base record is zeroed. -/
theorem overlapped_new_zeroed (d : RawFd) (port : Port) :
    (Overlapped.new d).base = OVERLAPPED.zeroed ∧
    (Overlapped.new d).driver = d ∧
    Driver.new (Except.ok ()) (Except.ok port) =
      Except.ok
        { port := port, waits := []
          notify_overlapped := Overlapped.new port.raw_handle } ∧
    (Overlapped.new port.raw_handle).base = OVERLAPPED.zeroed :=
  ⟨rfl, rfl, rfl, rfl⟩

end Compio
